import Mathlib

/-!
Shallow embedding of the quality-evaluation core of the
deepseek_glm_compare repository, together with theorems settling the
frozen claims about it.

Conventions of the embedding:
* Python floats are modelled as exact rationals (`ℚ`); `round(x, n)` is
  modelled as rounding `x * 10^n` to the nearest integer (Python uses
  banker's rounding on binary floats; no value appearing in the claims
  sits on a tie, where the two conventions could differ).
* IEEE NaN, which arises in numpy for degenerate statistics, is modelled
  by `Option` (`none` = NaN); real-valued statistics that involve square
  roots are carried in `ℝ`.
* Fallible Python code (raise / try-except) is modelled with `Except`.
* Python dicts are modelled as association lists in insertion order;
  dict assignment is `upsert` (replace in place or append).
* `response_parser.py` and `prompt_builder.py` — the two modules whose
  docstrings say they were extracted from `judge_manager.py` — double
  the backslashes inside their string literals, unlike the rest of the
  snapshot (for example `judge_llm.py` joins lines with a
  single-escaped newline). The staged regular expressions of the
  response parser therefore match literal backslash sequences rather
  than JSON objects or digit runs; the embedding models these staged
  patterns exactly as written.
-/

/- The rational arithmetic of the standard library is sealed against
unfolding; re-enable it so that concrete evaluations of the embedded
functions can be certified by `decide`. -/
attribute [local semireducible] Rat.mul Rat.add Rat.inv Rat.sub

/-- `round(x, 2)` of Python, over exact rationals. -/
def round2 (x : ℚ) : ℚ := (round (x * 100) : ℤ) / 100

/-- `round(x, 3)` of Python, over exact rationals. -/
def round3 (x : ℚ) : ℚ := (round (x * 1000) : ℤ) / 1000

/-- Arithmetic mean of a list of rationals (0 for the empty list,
callers guard emptiness exactly where the source does). -/
def listMean (xs : List ℚ) : ℚ := xs.sum / xs.length

/-- `statistics.variance` (sample variance, denominator n-1); the source
guards every call with a length check, mirrored by the `if`. -/
def sampleVariance (xs : List ℚ) : ℚ :=
  if 1 < xs.length then
    ((xs.map (fun x => (x - listMean xs) ^ 2)).sum) / (xs.length - 1)
  else 0

/-- Python dict assignment `d[k] = v` on an insertion-ordered
association list: replace the value in place if the key exists,
otherwise append. -/
def upsert : List (String × ℚ) → String → ℚ → List (String × ℚ)
  | [], c, v => [(c, v)]
  | (k, w) :: rest, c, v =>
    if k = c then (c, v) :: rest else (k, w) :: upsert rest c v

/-- JSON values as decoded by `json.loads`. Objects keep key order. -/
inductive JsonVal where
  | null : JsonVal
  | bool (b : Bool) : JsonVal
  | num (q : ℚ) : JsonVal
  | str (s : String) : JsonVal
  | arr (xs : List JsonVal) : JsonVal
  | obj (kvs : List (String × JsonVal)) : JsonVal

namespace JsonVal

/-- `k in d` / `d[k]` on a decoded object (first binding; `json.loads`
keeps the last duplicate key, but no input of interest has duplicates). -/
def lookupKey : JsonVal → String → Option JsonVal
  | .obj kvs, k => kvs.lookup k
  | _, _ => none

/-- Numeric projection of a JSON value. -/
def asNum : JsonVal → Option ℚ
  | .num q => some q
  | _ => none

end JsonVal

/-- Whitespace skipping of the JSON decoder. -/
def skipWs : List Char → List Char
  | c :: cs =>
    if c = ' ' ∨ c = '\t' ∨ c = '\n' ∨ c = '\r' then skipWs cs else c :: cs
  | [] => []

/-- Digit run to a natural number. -/
def digitsToNat (ds : List Char) : ℕ :=
  ds.foldl (fun n c => 10 * n + (c.toNat - 48)) 0

/-- Exponent suffix of a JSON number (`e`/`E` already consumed). -/
def parseExpTail (v : ℚ) (cs : List Char) : Option (ℚ × List Char) :=
  let (sign, cs1) : ℤ × List Char :=
    match cs with
    | '+' :: r => (1, r)
    | '-' :: r => (-1, r)
    | _ => (1, cs)
  let (ds, cs2) := cs1.span Char.isDigit
  if ds.isEmpty then none
  else some (v * (10 : ℚ) ^ (sign * (digitsToNat ds : ℤ)), cs2)

/-- Unsigned JSON number: integer part, optional fraction, optional
exponent. (The decoder accepts leading zeros, which strict `json.loads`
rejects; no claim input has them.) -/
def parseUnsignedNum (cs : List Char) : Option (ℚ × List Char) :=
  let (ip, cs2) := cs.span Char.isDigit
  if ip.isEmpty then none
  else
    let base : ℚ := (digitsToNat ip : ℕ)
    match cs2 with
    | '.' :: rest =>
      let (fp, cs3) := rest.span Char.isDigit
      if fp.isEmpty then none
      else
        let frac : ℚ := ((digitsToNat fp : ℕ) : ℚ) / ((10 : ℕ) ^ fp.length : ℕ)
        match cs3 with
        | 'e' :: r => parseExpTail (base + frac) r
        | 'E' :: r => parseExpTail (base + frac) r
        | _ => some (base + frac, cs3)
    | 'e' :: r => parseExpTail base r
    | 'E' :: r => parseExpTail base r
    | _ => some (base, cs2)

/-- Signed JSON number. -/
def parseNum (cs : List Char) : Option (ℚ × List Char) :=
  match cs with
  | '-' :: rest => (parseUnsignedNum rest).map (fun p => (-p.1, p.2))
  | _ => parseUnsignedNum cs

/-- One escape character of a JSON string (`\uXXXX` is not modelled; an
unknown escape fails the whole decode, which the caller absorbs). -/
def escChar (c : Char) : Option Char :=
  if c = '"' then some '"'
  else if c = '\\' then some '\\'
  else if c = '/' then some '/'
  else if c = 'n' then some '\n'
  else if c = 't' then some '\t'
  else if c = 'r' then some '\r'
  else if c = 'b' then some (Char.ofNat 8)
  else if c = 'f' then some (Char.ofNat 12)
  else none

/-- Body of a JSON string, the opening quote already consumed. -/
def parseStrRest : List Char → Option (List Char × List Char)
  | [] => none
  | '"' :: rest => some ([], rest)
  | '\\' :: e :: rest =>
    match escChar e with
    | some c => (parseStrRest rest).map (fun p => (c :: p.1, p.2))
    | none => none
  | c :: rest => (parseStrRest rest).map (fun p => (c :: p.1, p.2))

mutual

/-- Fuel-indexed recursive-descent JSON value decoder. -/
def parseVal : ℕ → List Char → Option (JsonVal × List Char)
  | 0, _ => none
  | fuel + 1, cs =>
    match skipWs cs with
    | '{' :: rest =>
      (match skipWs rest with
       | '}' :: rest2 => some (.obj [], rest2)
       | rest2 => (parseMembers fuel rest2).map (fun p => (.obj p.1, p.2)))
    | '[' :: rest =>
      (match skipWs rest with
       | ']' :: rest2 => some (.arr [], rest2)
       | rest2 => (parseElems fuel rest2).map (fun p => (.arr p.1, p.2)))
    | '"' :: rest => (parseStrRest rest).map (fun p => (.str (String.mk p.1), p.2))
    | 't' :: 'r' :: 'u' :: 'e' :: rest => some (.bool true, rest)
    | 'f' :: 'a' :: 'l' :: 's' :: 'e' :: rest => some (.bool false, rest)
    | 'n' :: 'u' :: 'l' :: 'l' :: rest => some (.null, rest)
    | cs2 => (parseNum cs2).map (fun p => (.num p.1, p.2))

/-- Members of a JSON object after `{` (at least one member). -/
def parseMembers : ℕ → List Char → Option (List (String × JsonVal) × List Char)
  | 0, _ => none
  | fuel + 1, cs =>
    match skipWs cs with
    | '"' :: rest =>
      (match parseStrRest rest with
       | some (k, r1) =>
         (match skipWs r1 with
          | ':' :: r2 =>
            (match parseVal fuel r2 with
             | some (v, r3) =>
               (match skipWs r3 with
                | ',' :: r4 =>
                  (parseMembers fuel r4).map
                    (fun p => ((String.mk k, v) :: p.1, p.2))
                | '}' :: r4 => some ([(String.mk k, v)], r4)
                | _ => none)
             | none => none)
          | _ => none)
       | none => none)
    | _ => none

/-- Elements of a JSON array after `[` (at least one element). -/
def parseElems : ℕ → List Char → Option (List JsonVal × List Char)
  | 0, _ => none
  | fuel + 1, cs =>
    match parseVal fuel cs with
    | some (v, r1) =>
      (match skipWs r1 with
       | ',' :: r2 => (parseElems fuel r2).map (fun p => (v :: p.1, p.2))
       | ']' :: r2 => some ([v], r2)
       | _ => none)
    | none => none

end

/-- `json.loads`: decode one value and require only whitespace after it. -/
def jsonLoads (s : String) : Option JsonVal :=
  match parseVal (s.length + 1) s.data with
  | some (v, rest) => if (skipWs rest).isEmpty then some v else none
  | none => none

namespace ResponseParser

/-- Python `float(...)` applied to a string: parsed after stripping
spaces; a string that is not a decimal numeral raises, modelled as
`Except.error`. -/
def pyFloat (cs : List Char) : Except String ℚ :=
  match parseNum (cs.dropWhile (fun c => c = ' ')) with
  | some (q, rest) =>
    if (rest.dropWhile (fun c => c = ' ')).isEmpty then .ok q
    else .error "could not convert string to float"
  | none => .error "could not convert string to float"

/-- Python `float(...)` applied to a decoded JSON value: numbers pass
through, booleans become 0/1, strings are parsed as numerals; anything
else raises, modelled as `Except.error`. -/
def floatOfJson : JsonVal → Except String ℚ
  | .num q => .ok q
  | .bool b => .ok (if b then 1 else 0)
  | .str s => pyFloat s.data
  | _ => .error "float() argument is not a number"

/-- One criterion of `_extract_simple_scores`: a nested dict yields its
`score` field (defaulting to the 3.0 midpoint when absent), anything
else goes through `float(...)`. A nested non-numeric `score` value is
modelled as a conversion failure; Python would store the raw value,
and both behaviours are absorbed by the caller's fallback — no claim
distinguishes them. -/
def simpleScoreValue (scoresJson : JsonVal) (criterion : String) : Except String ℚ :=
  match scoresJson.lookupKey criterion with
  | some (JsonVal.obj kvs) =>
    (match kvs.lookup "score" with
     | some (JsonVal.num q) => .ok q
     | none => .ok 3
     | some _ => .error "non-numeric nested score")
  | some v => floatOfJson v
  | none => .ok 3

/-- The loop of `_extract_simple_scores`, building the simple-score dict
in criteria order. -/
def extractSimpleScoresGo (scoresJson : JsonVal) (acc : List (String × ℚ)) :
    List String → Except String (List (String × ℚ))
  | [] => .ok acc
  | c :: rest =>
    match simpleScoreValue scoresJson c with
    | .ok v => extractSimpleScoresGo scoresJson (upsert acc c v) rest
    | .error e => .error e

/-- `ResponseParser._extract_simple_scores`. -/
def extract_simple_scores (scoresJson : JsonVal) (criteria : List String) :
    Except String (List (String × ℚ)) :=
  extractSimpleScoresGo scoresJson [] criteria

/-- Prefix test used by the criterion-search model. -/
def leadMatches : List Char → List Char → Bool
  | [], _ => true
  | _ :: _, [] => false
  | a :: as, b :: bs => a = b && leadMatches as bs

/-- Character class `[\\s\\S]` of the staged JSON-locating pattern of
`parse_standard` (line 52): with the doubled escapes it holds exactly
the three characters backslash, `s`, `S`. -/
def spanClassChar (c : Char) : Bool := c = '\\' ∨ c = 's' ∨ c = 'S'

/-- One attempt of the staged JSON pattern `\\{[\\s\\S]*\\}` at the head
of the text: a literal backslash-brace, a greedy run over the class,
then a literal backslash-close-brace. After greedy consumption the only
backtracking point that can supply the closing pair is the final
backslash of the run followed by a real close brace (an earlier
backtrack would need a close brace inside the run, which the class
excludes), so a match is exactly: a nonempty class run ending in a
backslash, with a close brace right after it. Such a span can never be
a JSON object. -/
def escBraceAt : List Char → Option (List Char)
  | '\\' :: '{' :: rest =>
    let (run, rest2) := rest.span spanClassChar
    (match rest2 with
     | '}' :: _ =>
       if run.getLast? = some '\\' then some ('\\' :: '{' :: (run ++ ['}']))
       else none
     | _ => none)
  | _ => none

/-- Leftmost search of the staged JSON pattern. -/
def searchEscBrace : List Char → Option (List Char)
  | [] => none
  | c :: rest =>
    match escBraceAt (c :: rest) with
    | some m => some m
    | none => searchEscBrace rest

/-- Greedy `d+` of the staged capture group: under the doubled escapes
it matches the LETTER d — not digits (the caller lower-cases both
sides, modelling the case-insensitive flag, so only `d` remains). -/
def dRun (cs : List Char) : List Char × List Char := cs.span (fun c => c = 'd')

/-- The staged capture group `(\\d+(?:\\.\\d+)?)` of the fallback
pattern (line 201) at the head of the text: a literal backslash, one or
more letters `d`, then optionally a literal backslash, one arbitrary
non-newline character, another literal backslash and more letters `d`.
Every successful capture begins with a backslash, so `float(...)` on it
always raises. -/
def captureAt : List Char → Option (List Char)
  | '\\' :: rest =>
    let (ds, rest2) := dRun rest
    if ds.isEmpty then none
    else
      (match rest2 with
       | '\\' :: a :: '\\' :: rest3 =>
         if a = '\n' then some ('\\' :: ds)
         else
           (let (ds2, _) := dRun rest3
            if ds2.isEmpty then some ('\\' :: ds)
            else some ('\\' :: ds ++ '\\' :: a :: '\\' :: ds2))
       | _ => some ('\\' :: ds))
  | _ => none

/-- The lazy gap of the staged fallback pattern: the first position
after the criterion where the capture matches, the gap not crossing a
newline. -/
def scanCaptureBeforeNewline : List Char → Option (List Char)
  | [] => none
  | c :: rest =>
    if c = '\n' then none
    else
      match captureAt (c :: rest) with
      | some cap => some cap
      | none => scanCaptureBeforeNewline rest

/-- Leftmost-start search of the staged fallback pattern: at each
occurrence of the criterion, look for the capture on the same line;
when the line runs out, try the next occurrence. Both sides are
lower-cased by the caller, modelling the case-insensitive flag. -/
def searchCapture (crit : List Char) : List Char → Option (List Char)
  | [] => none
  | c :: rest =>
    if leadMatches crit (c :: rest) then
      (match scanCaptureBeforeNewline ((c :: rest).drop crit.length) with
       | some cap => some cap
       | none => searchCapture crit rest)
    else searchCapture crit rest

/-- Result shape of `parse_standard`: the criterion scores, the overall
score when one is present, and the free-text fields the manager reads
back out of the returned dict. -/
structure ParseResult where
  scores : List (String × ℚ)
  overall_score : Option ℚ
  strengths : List String
  weaknesses : List String
  reasoning : String
deriving DecidableEq

/-- The per-criterion body of `_extract_scores_from_text` as staged:
when the pattern matches, the captured string goes through `float(...)`
and only then would be clamped into [1, 5]; since every staged capture
begins with a literal backslash, the conversion always raises and the
clamp (source line 206, under the comment announcing the 1-5 range) is
dead code. When the pattern does not match, the criterion gets the 3.0
midpoint. -/
def criterionScore (criterion : String) (text : String) : Except String ℚ :=
  match searchCapture (criterion.data.map Char.toLower) (text.data.map Char.toLower) with
  | some cap =>
    (match pyFloat cap with
     | .ok x => .ok (max 1 (min 5 x))
     | .error e => .error e)
  | none => .ok 3

/-- The criteria loop of `_extract_scores_from_text`, building the
score dict in order; the first raising criterion aborts the call. -/
def scoresFromText (text : String) (acc : List (String × ℚ)) :
    List String → Except String (List (String × ℚ))
  | [] => .ok acc
  | c :: rest =>
    match criterionScore c text with
    | .ok v => scoresFromText text (upsert acc c v) rest
    | .error e => .error e

/-- `ResponseParser._extract_scores_from_text` as staged: fallible,
because a matching capture makes `float(...)` raise. -/
def extract_scores_from_text (text : String) (criteria : List String) :
    Except String ParseResult :=
  (scoresFromText text [] criteria).map (fun scores =>
    { scores := scores
      overall_score :=
        some (if scores.isEmpty then 3 else (scores.map Prod.snd).sum / scores.length)
      strengths := []
      weaknesses := []
      reasoning := text.take 500 })

/-- String elements of a decoded JSON array (`strengths`/`weaknesses`;
non-string elements, which Python would keep raw, are dropped — no
claim reads these fields). -/
def strListOfJson : Option JsonVal → List String
  | some (JsonVal.arr xs) =>
    xs.filterMap (fun v => match v with | JsonVal.str s => some s | _ => none)
  | _ => []

/-- String projection with the empty-string default of `.get`. -/
def strOfJson : Option JsonVal → String
  | some (JsonVal.str s) => s
  | _ => ""

/-- `ResponseParser.parse_standard` as staged. The JSON-locating regex
never matches a JSON reply; when it does match a literal
backslash-brace span, `json.loads` necessarily fails on it (the span
begins with a backslash) and the except branch runs the text fallback,
and when it does not match, the fallback runs inside the try (line 67).
An error the in-try fallback raises is caught, and the identical second
fallback call of the except branch (line 71) raises it again, so in
every staged branch the outcome — value or error — is that of
`_extract_scores_from_text`. The JSON-object branch is kept for
structural fidelity although no staged input reaches it. The `category`
argument is unused, as in the source. -/
def parse_standard (response : String) (criteria : List String) (category : String) :
    Except String ParseResult :=
  match searchEscBrace response.data with
  | some span =>
    (match jsonLoads (String.mk span) with
     | some j =>
       (match j.lookupKey "scores" with
        | some scoresJson =>
          (match extract_simple_scores scoresJson criteria with
           | .ok simple =>
             .ok { scores := simple
                   overall_score := (j.lookupKey "overall_score").bind JsonVal.asNum
                   strengths := strListOfJson (j.lookupKey "strengths")
                   weaknesses := strListOfJson (j.lookupKey "weaknesses")
                   reasoning := strOfJson (j.lookupKey "reasoning") }
           | .error _ => extract_scores_from_text response criteria)
        | none => extract_scores_from_text response criteria)
     | none => extract_scores_from_text response criteria)
  | none => extract_scores_from_text response criteria

end ResponseParser

namespace ScoringRubric

/-- A rubric: ordered criteria plus per-criterion weights. -/
structure Rubric where
  criteria : List String
  weights : List (String × ℚ)
deriving DecidableEq

/-- `ScoringRubric.CATEGORY_RUBRICS`. -/
def CATEGORY_RUBRICS : List (String × Rubric) :=
  [("qa_simple",
    ⟨["accuracy", "conciseness", "clarity"],
     [("accuracy", 2/5), ("conciseness", 3/10), ("clarity", 3/10)]⟩),
   ("reasoning_complex",
    ⟨["reasoning_quality", "completeness", "clarity"],
     [("reasoning_quality", 2/5), ("completeness", 3/10), ("clarity", 3/10)]⟩),
   ("code_generation",
    ⟨["code_correctness", "code_style", "efficiency", "documentation"],
     [("code_correctness", 1/2), ("code_style", 1/5), ("efficiency", 1/5),
      ("documentation", 1/10)]⟩),
   ("generation_long",
    ⟨["structure", "content_quality", "creativity", "clarity"],
     [("structure", 1/4), ("content_quality", 7/20), ("creativity", 1/5),
      ("clarity", 1/5)]⟩),
   ("summarization",
    ⟨["completeness", "conciseness", "accuracy"],
     [("completeness", 2/5), ("conciseness", 3/10), ("accuracy", 3/10)]⟩),
   ("translation",
    ⟨["accuracy", "fluency", "cultural_appropriateness"],
     [("accuracy", 1/2), ("fluency", 3/10), ("cultural_appropriateness", 1/5)]⟩),
   ("math_reasoning",
    ⟨["accuracy", "reasoning_quality", "clarity"],
     [("accuracy", 1/2), ("reasoning_quality", 3/10), ("clarity", 1/5)]⟩),
   ("creative_writing",
    ⟨["creativity", "coherence", "emotional_impact", "originality"],
     [("creativity", 3/10), ("coherence", 3/10), ("emotional_impact", 1/5),
      ("originality", 1/5)]⟩),
   ("factual_accuracy",
    ⟨["accuracy", "completeness", "citation_quality"],
     [("accuracy", 1/2), ("completeness", 3/10), ("citation_quality", 1/5)]⟩),
   ("multi_turn",
    ⟨["context_retention", "relevance", "coherence"],
     [("context_retention", 2/5), ("relevance", 3/10), ("coherence", 3/10)]⟩)]

/-- `ScoringRubric.get_rubric`: category lookup with the documented
default rubric. -/
def get_rubric (category : String) : Rubric :=
  (CATEGORY_RUBRICS.lookup category).getD
    ⟨["relevance", "accuracy", "clarity"],
     [("relevance", 2/5), ("accuracy", 3/10), ("clarity", 3/10)]⟩

/-- `ScoringRubric.calculate_overall_score`: weighted sum over the
rubric's weights, criteria absent from `scores` contributing nothing,
rounded to 2 decimals. -/
def calculate_overall_score (category : String) (scores : List (String × ℚ)) : ℚ :=
  round2 ((get_rubric category).weights.foldl
    (fun acc cw =>
      match scores.lookup cw.1 with
      | some s => acc + s * cw.2
      | none => acc) 0)

end ScoringRubric

/-- `JudgeEvaluation` (metadata fields that only carry wall-clock time
are omitted; they do not influence any claim). -/
structure JudgeEvaluation where
  judge_name : String
  judge_model : String
  test_name : String
  test_category : String
  model_evaluated : String
  scores : List (String × ℚ)
  overall_score : ℚ
  strengths : List String := []
  weaknesses : List String := []
  reasoning : String := ""
  blind_evaluation : Bool := true
  success : Bool := true
  error_message : Option String := none
deriving DecidableEq

/-- A configured judge as the orchestrator sees it: its model label,
its blind-evaluation flag, and the outcome of the underlying
`client.chat` round-trip for the request at hand (`Except.error` models
the call raising). Prompt construction is pure string building and does
not influence the modelled outcome, so it is not replayed here. -/
structure JudgeInfo where
  model : String
  blind_evaluation : Bool := true
  chat_result : Except String String

namespace JudgeManager

/-- `JudgeManager._evaluate_with_judge`: the whole per-judge body —
chat call, response parsing, scoring — runs inside one try-except, so
an exception from the chat call, or one escaping the response parser,
becomes a `success := false` record carrying the error; a successfully
parsed reply is scored against the category rubric. -/
def evaluate_with_judge (judge_name : String) (info : JudgeInfo)
    (category model_name test_name : String) : JudgeEvaluation :=
  match info.chat_result with
  | .error e =>
    { judge_name := judge_name
      judge_model := info.model
      test_name := test_name
      test_category := category
      model_evaluated := model_name
      scores := []
      overall_score := 0
      success := false
      error_message := some e }
  | .ok response =>
    let rubric := ScoringRubric.get_rubric category
    match ResponseParser.parse_standard response rubric.criteria category with
    | .error e =>
      { judge_name := judge_name
        judge_model := info.model
        test_name := test_name
        test_category := category
        model_evaluated := model_name
        scores := []
        overall_score := 0
        success := false
        error_message := some e }
    | .ok parsed =>
      { judge_name := judge_name
        judge_model := info.model
        test_name := test_name
        test_category := category
        model_evaluated := model_name
        scores := parsed.scores
        overall_score := ScoringRubric.calculate_overall_score category parsed.scores
        strengths := parsed.strengths
        weaknesses := parsed.weaknesses
        reasoning := parsed.reasoning
        blind_evaluation := info.blind_evaluation
        success := true
        error_message := none }

/-- `JudgeManager.evaluate_single_output` for an enabled manager: one
`JudgeEvaluation` per configured judge, keyed by judge name.
`_evaluate_with_judge` never returns a missing record, so every judge
appears. The parallel mode dispatches the same per-judge computation
and re-keys the results by judge name, so the name-keyed outcome is the
same as the sequential mode modelled here. -/
def evaluate_single_output (judges : List (String × JudgeInfo))
    (category model_name test_name : String) :
    List (String × JudgeEvaluation) :=
  judges.map (fun j => (j.1, evaluate_with_judge j.1 j.2 category model_name test_name))

end JudgeManager

/-- The agreement fields `JudgeComparison.calculate_agreement_metrics`
fills in. The source also stores `score_std = sqrt(score_variance)` and
compares it with 0.5 and 1.0; since the square root is monotone those
comparisons are carried on the variance against 0.25 and 1.0, and the
standard deviation itself is determined by `score_variance`. -/
structure JudgeComparisonMetrics where
  score_variance : ℚ
  agreement_level : String
  criteria_disagreements : List (String × ℚ)
deriving DecidableEq

/-- Maximum of a list of rationals (lists are nonempty at use sites). -/
def listMax (xs : List ℚ) : ℚ := xs.foldl max (xs.headD 0)

/-- Minimum of a list of rationals (lists are nonempty at use sites). -/
def listMin (xs : List ℚ) : ℚ := xs.foldl min (xs.headD 0)

/-- The per-criterion disagreement table: for every criterion scored by
at least two judges, the spread between the highest and lowest score.
(The source iterates a Python set of criteria; the iteration order does
not affect which pairs are recorded.) -/
def criteriaDisagreements (evs : List JudgeEvaluation) : List (String × ℚ) :=
  ((evs.flatMap (fun e => e.scores.map Prod.fst)).dedup).filterMap
    (fun c =>
      let vals := evs.filterMap (fun e => e.scores.lookup c)
      if 2 ≤ vals.length then some (c, listMax vals - listMin vals) else none)

/-- `JudgeComparison.calculate_agreement_metrics`: with fewer than two
evaluations the dataclass keeps its defaults (variance 0, empty level);
otherwise the sample variance of the overall scores of ALL collected
evaluations — successful or not — drives the high/medium/low banding
(std < 0.5 and std < 1.0 become variance < 1/4 and < 1). -/
def calculate_agreement_metrics (evaluations : List (String × JudgeEvaluation)) :
    JudgeComparisonMetrics :=
  if evaluations.length < 2 then ⟨0, "", []⟩
  else
    let evs := evaluations.map Prod.snd
    let v := sampleVariance (evs.map (fun e => e.overall_score))
    ⟨v,
     if v < 1/4 then "high" else if v < 1 then "medium" else "low",
     criteriaDisagreements evs⟩

/-- The three-way weight mapping (`{"minimax": ..., "deepseek": ...,
"glm": ...}`); the source indexes exactly these three keys. -/
structure ThreeWeights where
  minimax : ℚ
  deepseek : ℚ
  glm : ℚ
deriving DecidableEq

/-- The dict returned by `calculate_weighted_score`. -/
structure WeightedScoreResult where
  weighted_score : ℚ
  minimax_score : ℚ
  deepseek_score : ℚ
  glm_score : ℚ
  weights : ThreeWeights
deriving DecidableEq

/-- One `breakdown` entry of `calculate_overall_score`. -/
structure BreakdownEntry where
  score : ℚ
  weight : ℚ
  contribution : ℚ
deriving DecidableEq

/-- The dict returned by `MiniMaxScoreCalculator.calculate_overall_score`. -/
structure OverallScoreResult where
  overall_score : ℚ
  dimension_scores : List (String × ℚ)
  dimension_weights : List (String × ℚ)
  breakdown : List (String × BreakdownEntry)
deriving DecidableEq

/-- The dict returned by `calculate_pearson_correlation` (minimax
variant). The p-value of the scipy branch is not modelled beyond
presence/absence (`none` = Python `None`); no claim reads a concrete
non-`None` p-value. -/
structure PearsonResult where
  correlation : ℚ
  p_value : Option ℚ
  interpretation : String
deriving DecidableEq

/-- The dict returned by `calculate_inter_rater_reliability` (minimax
variant). -/
structure IRRResult where
  average_correlation : ℚ
  correlations : List (String × ℚ)
  reliability : String
deriving DecidableEq

/-- Digit-by-digit step of the integer square root. -/
def isqrtGo (n : ℕ) : ℕ → ℕ → ℕ
  | 0, r => r
  | i + 1, r =>
    let r2 := r + 2 ^ i
    if r2 * r2 ≤ n then isqrtGo n i r2 else isqrtGo n i r

/-- `⌊√n⌋`, by the binary digit-by-digit method (structurally recursive
over a 64-bit budget, hence exact for every `n < 2^128`, far beyond any
magnitude the statistics engine produces). -/
def isqrt (n : ℕ) : ℕ := isqrtGo n 64 0

/-- Floor of the square root of a nonnegative rational, via the integer
square root: with `t = a/b` in lowest terms, `⌊√(a/b)⌋ = ⌊⌊√(ab)⌋/b⌋`. -/
def ratSqrtFloor (t : ℚ) : ℕ := isqrt (t.num.toNat * t.den) / t.den

/-- Nearest natural number to `√t` for `t ≥ 0` (k+1 exactly when
`√t ≥ k + 1/2`, i.e. `4t ≥ (2k+1)²`; an exact tie rounds up). -/
def roundSqrt (t : ℚ) : ℕ :=
  let k := ratSqrtFloor t
  if ((2 * k + 1 : ℕ) : ℚ) ^ 2 ≤ 4 * t then k + 1 else k

/-- `round(num / √densq, 3)` computed exactly: the source computes the
correlation `num / √densq` in floating point (via `scipy.stats.pearsonr`
or the manual fallback formula — mathematically the same value) and
rounds it to 3 decimals. `|num|·1000/√densq` rounds to the nearest `k`
with `(k-1/2)² ≤ num²·10⁶/densq < (k+1/2)²`, which is the integer
comparison performed by `roundSqrt`; the sign is the sign of `num`.
A zero denominator yields 0 as in the manual fallback's guard. -/
def corrRound3 (num densq : ℚ) : ℚ :=
  if densq = 0 then 0
  else
    let k : ℚ := (roundSqrt (num ^ 2 * 1000000 / densq) : ℕ)
    if num < 0 then -(k / 1000) else k / 1000

/-- The qualitative interpretation of `calculate_pearson_correlation`,
computed from the exact (unrounded) correlation: with `densq > 0`,
`|r| ≥ t  ↔  num² ≥ t²·densq` and `r > 0 ↔ num > 0`; with `densq = 0`
the correlation is 0 and the final bucket applies. -/
def interpretCorr (num densq : ℚ) : String :=
  if densq ≠ 0 ∧ num ^ 2 ≥ (16/25) * densq then
    (if num > 0 then "Very strong positive" else "Very strong negative")
  else if densq ≠ 0 ∧ num ^ 2 ≥ (9/25) * densq then
    (if num > 0 then "Strong positive" else "Strong negative")
  else if densq ≠ 0 ∧ num ^ 2 ≥ (4/25) * densq then
    (if num > 0 then "Moderate positive" else "Moderate negative")
  else if densq ≠ 0 ∧ num ^ 2 ≥ (1/25) * densq then
    (if num > 0 then "Weak positive" else "Weak negative")
  else "Very weak or no correlation"

namespace MiniMaxScoreCalculator

/-- `MiniMaxScoreCalculator.calculate_weighted_score`: the fixed
three-way weighting. A missing `weights` argument selects the
40/30/30 default; a supplied mapping is used exactly as given. -/
def calculate_weighted_score (minimax_score deepseek_score glm_score : ℚ)
    (weights : Option ThreeWeights) : WeightedScoreResult :=
  let w := weights.getD ⟨2/5, 3/10, 3/10⟩
  { weighted_score :=
      round2 (minimax_score * w.minimax + deepseek_score * w.deepseek +
        glm_score * w.glm)
    minimax_score := round2 minimax_score
    deepseek_score := round2 deepseek_score
    glm_score := round2 glm_score
    weights := w }

/-- Total weight of `calculate_overall_score`:
`sum(dimension_weights.values())`. -/
def totalWeight (dimension_weights : List (String × ℚ)) : ℚ :=
  (dimension_weights.map Prod.snd).sum

/-- Weighted sum of `calculate_overall_score`: each dimension score
times its weight (0 when the dimension has no weight entry). -/
def weightedSum (dimension_scores dimension_weights : List (String × ℚ)) : ℚ :=
  (dimension_scores.map
    (fun ds => ds.2 * ((dimension_weights.lookup ds.1).getD 0))).sum

/-- `MiniMaxScoreCalculator.calculate_overall_score`: the generic
weighted average with its divide-by-zero guard (`total_weight > 0`). -/
def calculate_overall_score (dimension_scores dimension_weights : List (String × ℚ)) :
    OverallScoreResult :=
  let tw := totalWeight dimension_weights
  { overall_score :=
      round2 (if tw > 0 then weightedSum dimension_scores dimension_weights / tw else 0)
    dimension_scores := dimension_scores.map (fun ds => (ds.1, round2 ds.2))
    dimension_weights := dimension_weights
    breakdown := dimension_scores.map
      (fun ds =>
        let w := (dimension_weights.lookup ds.1).getD 0
        (ds.1, ⟨round2 ds.2, w, round2 (ds.2 * w)⟩)) }

/-- Pearson numerator `n·Σxy − Σx·Σy` of the source formula. -/
def pearsonNum (s1 s2 : List ℚ) : ℚ :=
  (s1.length : ℚ) * (List.zipWith (· * ·) s1 s2).sum - s1.sum * s2.sum

/-- Square of the Pearson denominator,
`(n·Σx² − (Σx)²)·(n·Σy² − (Σy)²)`. -/
def pearsonDenSq (s1 s2 : List ℚ) : ℚ :=
  ((s1.length : ℚ) * (s1.map (· ^ 2)).sum - s1.sum ^ 2) *
    ((s2.length : ℚ) * (s2.map (· ^ 2)).sum - s2.sum ^ 2)

/-- `MiniMaxScoreCalculator.calculate_pearson_correlation`: raises
(`Except.error`) on mismatched lengths, returns the `(0, None,
"Insufficient data")` record for fewer than two samples, and otherwise
the exact correlation rounded to 3 decimals with its interpretation. -/
def calculate_pearson_correlation (scores1 scores2 : List ℚ) :
    Except String PearsonResult :=
  if scores1.length ≠ scores2.length then
    .error "scores1 and scores2 must have the same length"
  else if scores1.length < 2 then
    .ok ⟨0, none, "Insufficient data"⟩
  else
    .ok ⟨corrRound3 (pearsonNum scores1 scores2) (pearsonDenSq scores1 scores2),
         none,
         interpretCorr (pearsonNum scores1 scores2) (pearsonDenSq scores1 scores2)⟩

/-- The rounded correlation stored per pair by the reliability loop;
the guard of the loop makes the error branch unreachable. -/
def pairCorrelation (s1 s2 : List ℚ) : ℚ :=
  match calculate_pearson_correlation s1 s2 with
  | .ok r => r.correlation
  | .error _ => 0

/-- All ordered pairs `(i, j)` with `i < j` of the rater list, in the
order the nested loops of the source visit them. -/
def raterPairs : List (String × List ℚ) →
    List ((String × List ℚ) × (String × List ℚ))
  | [] => []
  | x :: rest => rest.map (fun y => (x, y)) ++ raterPairs rest

/-- The `"r1_vs_r2" → correlation` pairs collected by
`calculate_inter_rater_reliability`: every rater pair whose score
vectors have equal length greater than one. -/
def irrContributions (ratings : List (String × List ℚ)) : List (String × ℚ) :=
  (raterPairs ratings).filterMap
    (fun p =>
      if p.1.2.length = p.2.2.length ∧ 1 < p.1.2.length then
        some (p.1.1 ++ "_vs_" ++ p.2.1, pairCorrelation p.1.2 p.2.2)
      else none)

/-- The average the reliability banding is applied to: the mean of the
collected pairwise correlations, 0 when no pair qualifies. -/
def pairwiseCorrelationAvg (ratings : List (String × List ℚ)) : ℚ :=
  let vals := (irrContributions ratings).map Prod.snd
  if vals.isEmpty then 0 else vals.sum / vals.length

/-- `MiniMaxScoreCalculator.calculate_inter_rater_reliability`: the
"Insufficient raters" record for fewer than two raters, otherwise the
rounded average pairwise correlation, the per-pair table, and the
Excellent/Good/Fair/Poor banding of the unrounded average. -/
def calculate_inter_rater_reliability (ratings : List (String × List ℚ)) :
    IRRResult :=
  if ratings.length < 2 then ⟨0, [], "Insufficient raters"⟩
  else
    let avg := pairwiseCorrelationAvg ratings
    ⟨round3 avg,
     irrContributions ratings,
     if avg ≥ 8/10 then "Excellent"
     else if avg ≥ 6/10 then "Good"
     else if avg ≥ 4/10 then "Fair"
     else "Poor"⟩

/-- `MiniMaxScoreCalculator.grade_score`: the 0–10 band labels
(优秀 = excellent, 良好 = good, 合格 = qualified, 不合格 = unqualified,
严重缺陷 = critical), each band inclusive at its lower edge. -/
def grade_score (score : ℚ) : String :=
  if score ≥ 9 then "优秀"
  else if score ≥ 15/2 then "良好"
  else if score ≥ 6 then "合格"
  else if score ≥ 3 then "不合格"
  else "严重缺陷"

end MiniMaxScoreCalculator

/-- Mean of a score list as a real number (`np.mean` on nonempty input). -/
noncomputable def meanR (xs : List ℚ) : ℝ := ((xs.sum : ℚ) : ℝ) / (xs.length : ℝ)

/-- `np.mean`: NaN (`none`) on the empty array. -/
noncomputable def npMeanR (xs : List ℚ) : Option ℝ :=
  if xs.isEmpty then none else some (meanR xs)

/-- `np.std(xs, ddof)`: NaN (`none`) on the empty array and when the
denominator `n - ddof` vanishes (the 0/0 of `ddof=1` on one sample),
otherwise the square root of the (ddof-corrected) mean square
deviation. -/
noncomputable def npStdR (xs : List ℚ) (ddof : ℕ) : Option ℝ :=
  if xs.length = 0 ∨ xs.length ≤ ddof then none
  else some (Real.sqrt
    ((xs.map (fun x => ((x : ℝ) - meanR xs) ^ 2)).sum / ((xs.length - ddof : ℕ) : ℝ)))

/-- NaN-propagating subtraction on modelled floats. -/
noncomputable def optSub : Option ℝ → Option ℝ → Option ℝ
  | some a, some b => some (a - b)
  | _, _ => none

/-- NaN-propagating addition on modelled floats. -/
noncomputable def optAdd : Option ℝ → Option ℝ → Option ℝ
  | some a, some b => some (a + b)
  | _, _ => none

/-- `round(x, 2)` on a real number. -/
noncomputable def round2R (x : ℝ) : ℝ := ((round (x * 100) : ℤ) : ℝ) / 100

/-- `round(x, 2)` on a modelled float (`round(nan, 2)` is NaN). -/
noncomputable def optRound2 : Option ℝ → Option ℝ
  | some a => some (round2R a)
  | none => none

namespace MiniMaxScoreCalculator

/-- The z-score table of `calculate_confidence_interval` with its 1.96
default. -/
def zTable (confidence : ℚ) : ℚ :=
  if confidence = 90/100 then 1645/1000
  else if confidence = 95/100 then 196/100
  else if confidence = 99/100 then 2576/1000
  else 196/100

/-- `MiniMaxScoreCalculator.calculate_confidence_interval`:
`(mean, lower, upper, margin)`, each rounded to 2 decimals. The standard
error guard covers only `n > 0`, so on the empty list the mean (and with
it both bounds) is the NaN of `np.mean([])` while the margin is the
guarded 0. -/
noncomputable def calculate_confidence_interval (scores : List ℚ) (confidence : ℚ) :
    Option ℝ × Option ℝ × Option ℝ × Option ℝ :=
  let mean := npMeanR scores
  let std := npStdR scores 0
  let n := scores.length
  let z : ℚ := zTable confidence
  let std_error : Option ℝ :=
    if n > 0 then std.map (fun s => s / Real.sqrt (n : ℝ)) else some 0
  let margin := std_error.map (fun se => (z : ℝ) * se)
  (optRound2 mean, optRound2 (optSub mean margin),
   optRound2 (optAdd mean margin), optRound2 margin)

end MiniMaxScoreCalculator

namespace ScoreNormalizer

/-- The exact real Pearson correlation the floating-point
`scipy.stats.pearsonr` call approximates (0 on a vanishing denominator,
where scipy has no finite value). -/
noncomputable def pearsonReal (xs ys : List ℚ) : ℝ :=
  ((MiniMaxScoreCalculator.pearsonNum xs ys : ℚ) : ℝ) /
    Real.sqrt ((MiniMaxScoreCalculator.pearsonDenSq xs ys : ℚ) : ℝ)

/-- `ScoreNormalizer.calculate_pearson_correlation`: `(0.0, 1.0)` — not
a `None` p-value — for mismatched lengths or fewer than two samples,
without raising; otherwise the scipy correlation and p-value (the
p-value of the non-degenerate branch is not consumed by any claim and
is modelled as 0). -/
noncomputable def calculate_pearson_correlation (scores1 scores2 : List ℚ) : ℝ × ℝ :=
  if scores1.length ≠ scores2.length ∨ scores1.length < 2 then (0, 1)
  else (pearsonReal scores1 scores2, 0)

/-- `ScoreNormalizer.calculate_confidence_interval`: `(0, 0, 0, 0)` on
the empty list; otherwise mean and bounds from the SAMPLE standard
deviation (`ddof=1`), which is the NaN `0/0` on a single sample, with no
rounding. The z-score is 1.96 for confidence ≥ 0.95, else 1.645. -/
noncomputable def calculate_confidence_interval (scores : List ℚ) (confidence : ℚ) :
    Option ℝ × Option ℝ × Option ℝ × Option ℝ :=
  if scores.isEmpty then (some 0, some 0, some 0, some 0)
  else
    let mean : Option ℝ := some (meanR scores)
    let std := npStdR scores 1
    let z : ℚ := if confidence ≥ 95/100 then 196/100 else 1645/1000
    let margin := std.map (fun s => (z : ℝ) * s / Real.sqrt (scores.length : ℝ))
    (mean, optSub mean margin, optAdd mean margin, margin)

/-- The default grade thresholds of `ScoreNormalizer.grade_score`
(lower, upper); only the lower bound of each band is consulted. -/
structure GradeThresholds where
  excellent : ℚ × ℚ := (9, 10)
  good : ℚ × ℚ := (15/2, 89/10)
  qualified : ℚ × ℚ := (6, 37/5)
  unqualified : ℚ × ℚ := (3, 59/10)
  critical : ℚ × ℚ := (0, 29/10)

/-- `ScoreNormalizer.grade_score` with optional custom thresholds. -/
def grade_score (score : ℚ) (thresholds : Option GradeThresholds) : String :=
  let t := thresholds.getD {}
  if score ≥ t.excellent.1 then "优秀"
  else if score ≥ t.good.1 then "良好"
  else if score ≥ t.qualified.1 then "合格"
  else if score ≥ t.unqualified.1 then "不合格"
  else "严重缺陷"

end ScoreNormalizer

/-- A judge reply used by the partial-failure scenario: well-formed JSON
scoring every `qa_simple` criterion 4 — which the staged parser
nevertheless cannot read (its regexes match only literal backslash
sequences the reply does not contain), so each criterion falls back to
the 3.0 midpoint and each successful judge's overall score is 3.0. -/
def scenarioReply : String :=
  "\x7b\"scores\": \x7b\"accuracy\": 4, \"conciseness\": 4, \"clarity\": 4\x7d\x7d"

/-- Three configured judges for the partial-failure scenario; the second
judge's underlying chat call raises. -/
def scenarioJudges : List (String × JudgeInfo) :=
  [("deepseek_judge", ⟨"deepseek-chat", true, .ok scenarioReply⟩),
   ("glm_judge", ⟨"glm-4", true, .error "Connection timeout"⟩),
   ("minimax_judge", ⟨"minimax-01", true, .ok scenarioReply⟩)]

/-- The evaluation mapping the orchestrator returns for the
partial-failure scenario. -/
def scenarioEvaluations : List (String × JudgeEvaluation) :=
  JudgeManager.evaluate_single_output scenarioJudges "qa_simple" "deepseek" "test_1"

/-- The reliability-threshold scenario of the spec: two perfectly
agreeing raters and one contrarian. -/
def scenarioRatings : List (String × List ℚ) :=
  [("j1", [8, 7, 9]), ("j2", [8, 7, 9]), ("j3", [2, 9, 1])]

/-- The parser-fallback probe of the spec: a JSON object embedded
mid-sentence, with a nested accuracy score and an overall score. -/
def c2Reply : String :=
  "I think this is \x7b\"scores\": \x7b\"accuracy\": \x7b\"score\": 4\x7d\x7d, \"overall_score\": 4.0\x7d"

section RoundLemmas

theorem round2R_ratCast (q : ℚ) : round2R ((q : ℚ) : ℝ) = ((round2 q : ℚ) : ℝ) := by
  unfold round2R round2
  rw [show ((q : ℝ) * 100) = (((q * 100 : ℚ) : ℝ)) by push_cast; ring, Rat.round_cast]
  push_cast
  ring

theorem round2R_five : round2R (5 : ℝ) = 5 := by
  rw [show (5 : ℝ) = ((5 : ℚ) : ℝ) by norm_num, round2R_ratCast,
    show round2 (5 : ℚ) = 5 by decide]

theorem round2R_zero : round2R (0 : ℝ) = 0 := by
  rw [show (0 : ℝ) = ((0 : ℚ) : ℝ) by norm_num, round2R_ratCast,
    show round2 (0 : ℚ) = 0 by decide]

end RoundLemmas

/-- Claim C6: for every score list with at most one element the
confidence interval is claimed to be `(v, v, v, 0)` with no NaN
component. The code disagrees on one degenerate case in each
implementation: the minimax variant propagates the NaN of `np.mean([])`
through the mean and both bounds on the empty list (margin stays 0 via
its `n > 0` guard), and the normalization variant propagates the NaN of
the `ddof=1` sample deviation through bounds and margin on a singleton.
The two working halves are recorded alongside. -/
theorem C6_confidence_interval_nan :
    ScoreNormalizer.calculate_confidence_interval [5] (95/100) =
      (some 5, none, none, none) ∧
    MiniMaxScoreCalculator.calculate_confidence_interval [] (95/100) =
      (none, none, none, some 0) ∧
    MiniMaxScoreCalculator.calculate_confidence_interval [5] (95/100) =
      (some 5, some 5, some 5, some 0) ∧
    ScoreNormalizer.calculate_confidence_interval [] (95/100) =
      (some 0, some 0, some 0, some 0) := by
  refine ⟨?_, ?_, ?_, ?_⟩
  · simp [ScoreNormalizer.calculate_confidence_interval, npStdR, meanR, optSub, optAdd]
  · simp [MiniMaxScoreCalculator.calculate_confidence_interval,
      MiniMaxScoreCalculator.zTable, npMeanR, npStdR, optSub, optAdd, optRound2,
      round2R_zero]
  · simp [MiniMaxScoreCalculator.calculate_confidence_interval,
      MiniMaxScoreCalculator.zTable, npMeanR, npStdR, meanR, optSub, optAdd,
      optRound2, round2R_five, round2R_zero]
  · simp [ScoreNormalizer.calculate_confidence_interval]

/-- Claim C1 (counterexample): with three configured judges of which the
second raises, the orchestrator does return 3 records (2 successes, 1
failure), but the agreement statistics are computed over ALL returned
evaluations: the failed judge's zero overall score drives the variance
to 3 and the agreement level to "low", whereas over the successful
evaluations alone the variance is 0 ("high") — refuting the claim that
a failed evaluation never contributes to aggregation. (Each successful
judge's overall score is 3.0: the staged parser regexes never match the
JSON reply, so every criterion falls back to the 3.0 midpoint.) -/
theorem C1_counterexample :
    scenarioEvaluations.length = 3 ∧
    (scenarioEvaluations.filter (fun e => e.2.success)).length = 2 ∧
    (scenarioEvaluations.filter (fun e => !e.2.success)).length = 1 ∧
    (calculate_agreement_metrics scenarioEvaluations).score_variance = 3 ∧
    sampleVariance ((scenarioEvaluations.filter (fun e => e.2.success)).map
      (fun e => e.2.overall_score)) = 0 ∧
    (calculate_agreement_metrics scenarioEvaluations).agreement_level = "low" ∧
    (calculate_agreement_metrics (scenarioEvaluations.filter
      (fun e => e.2.success))).agreement_level = "high" ∧
    ((3 : ℚ) ≠ (0 : ℚ)) := by decide

/-- Claim C1 (amended): per-judge failure isolation holds — three
records come back, two successful and one failed with its error
recorded and nothing propagated — but the agreement statistics
(variance, standard deviation, agreement level) are computed over all
collected evaluations including failed ones, so a failed judge's zero
overall score does contribute to them. -/
theorem C1_amended :
    scenarioEvaluations.length = 3 ∧
    (scenarioEvaluations.filter (fun e => e.2.success)).length = 2 ∧
    scenarioEvaluations.map (fun e => (e.1, e.2.overall_score)) =
      [("deepseek_judge", 3), ("glm_judge", 0), ("minimax_judge", 3)] ∧
    (scenarioEvaluations.filter (fun e => !e.2.success)).map
      (fun e => (e.1, e.2.error_message, e.2.overall_score)) =
      [("glm_judge", some "Connection timeout", 0)] ∧
    (∀ evals : List (String × JudgeEvaluation), 2 ≤ evals.length →
      (calculate_agreement_metrics evals).score_variance =
        sampleVariance (evals.map (fun e => e.2.overall_score))) := by
  refine ⟨by decide, by decide, by decide, by decide, ?_⟩
  intro evals h
  unfold calculate_agreement_metrics
  rw [if_neg (by omega)]
  simp only [List.map_map]
  rfl

/-- Witness for C1_amended at the scenario input. -/
theorem C1_amended_witness :
    (calculate_agreement_metrics scenarioEvaluations).score_variance =
      sampleVariance (scenarioEvaluations.map (fun e => e.2.overall_score)) :=
  C1_amended.2.2.2.2 scenarioEvaluations (by decide)

/-- Claim C2 (code-bug evidence): the staged parser regexes carry
doubled backslashes, so on the spec's probe reply the embedded JSON is
never located and no number is ever extracted — both criteria fall back
to the 3.0 midpoint and the overall score is their mean 3.0, not the
claimed accuracy = 4.0 — and the method is not raise-free: a reply
holding a literal backslash-d after a criterion makes the captured
string reach `float(...)`, whose ValueError escapes through the second
fallback call of the except branch. -/
theorem C2_parser_mangled_regex :
    (ResponseParser.parse_standard c2Reply ["accuracy", "clarity"] "qa_simple").map
      (fun r => (r.scores, r.overall_score)) =
      Except.ok ([("accuracy", 3), ("clarity", 3)], some 3) ∧
    ((3 : ℚ) ≠ 4) ∧
    ResponseParser.parse_standard "accuracy \\d" ["accuracy"] "qa_simple" =
      Except.error "could not convert string to float" :=
  ⟨rfl, by decide, rfl⟩

/-- Claim C3: with the default 0.40/0.30/0.30 weights the three-way
score is the weighted sum rounded to 2 decimals, and at
(minimax, deepseek, glm) = (9, 7, 8) it is exactly 8.10. -/
theorem C3_weighted_three_way :
    (∀ m d g : ℚ,
      (MiniMaxScoreCalculator.calculate_weighted_score m d g none).weighted_score =
        round2 (m * (2/5) + d * (3/10) + g * (3/10))) ∧
    (MiniMaxScoreCalculator.calculate_weighted_score 9 7 8 none).weighted_score = 81/10 ∧
    (9 : ℚ) * (2/5) + 7 * (3/10) + 8 * (3/10) = 81/10 :=
  ⟨fun m d g => rfl, by decide, by norm_num⟩

/-- Claim C4 (counterexample): the minimax Pearson routine raises
(ValueError) on lists of different lengths instead of returning the
degenerate (0, None) result. -/
theorem C4_counterexample :
    MiniMaxScoreCalculator.calculate_pearson_correlation [1] [1, 2] =
      Except.error "scores1 and scores2 must have the same length" := rfl

/-- Claim C4 (amended): for equal-length lists with fewer than two
elements the minimax Pearson returns correlation 0 with p-value None
without raising; on mismatched lengths it raises ValueError; the
normalization variant returns (0.0, 1.0) — correlation 0 but p-value
1.0, not None — for both degenerate cases, without raising. -/
theorem C4_amended :
    ∀ xs ys : List ℚ,
      (xs.length = ys.length → xs.length < 2 →
        MiniMaxScoreCalculator.calculate_pearson_correlation xs ys =
          Except.ok ⟨0, none, "Insufficient data"⟩) ∧
      (xs.length ≠ ys.length →
        MiniMaxScoreCalculator.calculate_pearson_correlation xs ys =
          Except.error "scores1 and scores2 must have the same length") ∧
      (xs.length ≠ ys.length ∨ xs.length < 2 →
        ScoreNormalizer.calculate_pearson_correlation xs ys = (0, 1)) := by
  intro xs ys
  refine ⟨?_, ?_, ?_⟩
  · intro h1 h2
    unfold MiniMaxScoreCalculator.calculate_pearson_correlation
    rw [if_neg (not_not_intro h1), if_pos h2]
  · intro h
    unfold MiniMaxScoreCalculator.calculate_pearson_correlation
    rw [if_pos h]
  · intro h
    unfold ScoreNormalizer.calculate_pearson_correlation
    rw [if_pos h]

/-- Witness for C4_amended at concrete degenerate inputs. -/
theorem C4_amended_witness :
    MiniMaxScoreCalculator.calculate_pearson_correlation [1] [1] =
      Except.ok ⟨0, none, "Insufficient data"⟩ ∧
    ScoreNormalizer.calculate_pearson_correlation [1] [1, 2] = (0, 1) :=
  ⟨(C4_amended [1] [1]).1 rfl (by norm_num),
   (C4_amended [1] [1, 2]).2.2 (Or.inl (by norm_num))⟩

/-- Claim C5 (counterexample): two raters whose score vectors cannot be
compared (different lengths) are fewer than two comparable raters, yet
the reliability routine returns average 0 labelled "Poor" — a defined
result, but not the "Insufficient raters" record the claim requires. -/
theorem C5_counterexample :
    MiniMaxScoreCalculator.calculate_inter_rater_reliability [("a", [1]), ("b", [1, 2])] =
      ⟨0, [], "Poor"⟩ ∧
    (MiniMaxScoreCalculator.calculate_inter_rater_reliability
      [("a", [1]), ("b", [1, 2])]).reliability ≠ "Insufficient raters" := by decide

/-- Claim C5 (amended): the reliability routine averages pairwise
correlations over every rater pair with equal-length vectors of length
above one and bands the (unrounded) average at 0.8/0.6/0.4; the
"Insufficient raters" record is returned exactly when fewer than two
raters (comparable or not) are supplied; on the spec's scenario the
average is -0.279 and the label "Poor" (not "excellent"). -/
theorem C5_amended :
    MiniMaxScoreCalculator.calculate_inter_rater_reliability scenarioRatings =
      ⟨-279/1000,
       [("j1_vs_j2", 1), ("j1_vs_j3", -459/500), ("j2_vs_j3", -459/500)],
       "Poor"⟩ ∧
    (∀ ratings : List (String × List ℚ), ratings.length < 2 →
      MiniMaxScoreCalculator.calculate_inter_rater_reliability ratings =
        ⟨0, [], "Insufficient raters"⟩) ∧
    (∀ ratings : List (String × List ℚ), 2 ≤ ratings.length →
      (MiniMaxScoreCalculator.calculate_inter_rater_reliability ratings).average_correlation =
        round3 (MiniMaxScoreCalculator.pairwiseCorrelationAvg ratings) ∧
      (MiniMaxScoreCalculator.calculate_inter_rater_reliability ratings).reliability =
        (if MiniMaxScoreCalculator.pairwiseCorrelationAvg ratings ≥ 8/10 then "Excellent"
         else if MiniMaxScoreCalculator.pairwiseCorrelationAvg ratings ≥ 6/10 then "Good"
         else if MiniMaxScoreCalculator.pairwiseCorrelationAvg ratings ≥ 4/10 then "Fair"
         else "Poor")) := by
  refine ⟨by decide, ?_, ?_⟩
  · intro ratings h
    unfold MiniMaxScoreCalculator.calculate_inter_rater_reliability
    rw [if_pos h]
  · intro ratings h
    unfold MiniMaxScoreCalculator.calculate_inter_rater_reliability
    rw [if_neg (by omega)]
    exact ⟨rfl, rfl⟩

/-- Witness for C5_amended at a single-rater input. -/
theorem C5_amended_witness :
    MiniMaxScoreCalculator.calculate_inter_rater_reliability [("solo", [1, 2, 3])] =
      ⟨0, [], "Insufficient raters"⟩ :=
  C5_amended.2.1 [("solo", [1, 2, 3])] (by decide)

/-- Claim C7 (counterexample): a custom weight mapping summing to 3 is
neither rejected nor normalized — the weighted score of (1,1,1) under
weights (1,1,1) is 3, computed with weights summing to 3 ≠ 1
(normalization would have produced 1). -/
theorem C7_counterexample :
    (MiniMaxScoreCalculator.calculate_weighted_score 1 1 1 (some ⟨1, 1, 1⟩)).weighted_score = 3 ∧
    ((MiniMaxScoreCalculator.calculate_weighted_score 1 1 1 (some ⟨1, 1, 1⟩)).weights.minimax +
     (MiniMaxScoreCalculator.calculate_weighted_score 1 1 1 (some ⟨1, 1, 1⟩)).weights.deepseek +
     (MiniMaxScoreCalculator.calculate_weighted_score 1 1 1 (some ⟨1, 1, 1⟩)).weights.glm) = 3 ∧
    ((3 : ℚ) ≠ 1) := by decide

/-- Claim C7 (amended): only the default weights sum to 1.0; a custom
weight mapping is applied exactly as supplied — the weighted score is
the raw dot product rounded to 2 decimals and the mapping is echoed
back unchanged, with no validation or normalization. -/
theorem C7_amended :
    (∀ (m d g : ℚ) (w : ThreeWeights),
      (MiniMaxScoreCalculator.calculate_weighted_score m d g (some w)).weighted_score =
        round2 (m * w.minimax + d * w.deepseek + g * w.glm) ∧
      (MiniMaxScoreCalculator.calculate_weighted_score m d g (some w)).weights = w) ∧
    ((2 : ℚ)/5 + 3/10 + 3/10 = 1) :=
  ⟨fun m d g w => ⟨rfl, rfl⟩, by norm_num⟩

/-- Claim C8 (counterexample): for a weight set with negative total the
guard `total_weight > 0` returns 0 although the claimed quotient
`sum(score*weight)/sum(weight)` is 5. -/
theorem C8_counterexample :
    (MiniMaxScoreCalculator.calculate_overall_score [("a", 5)] [("a", -1)]).overall_score = 0 ∧
    MiniMaxScoreCalculator.weightedSum [("a", 5)] [("a", -1)] /
      MiniMaxScoreCalculator.totalWeight [("a", -1)] = 5 ∧
    ((0 : ℚ) ≠ 5) := by decide

/-- Claim C8 (amended): the generic weighted average returns the
quotient (rounded to 2 decimals) when the total weight is positive and
0 whenever the total weight is ≤ 0 — in particular 0 when it is 0 — so
the division never executes with a zero divisor and the operation is
total. -/
theorem C8_amended :
    (∀ dimension_scores dimension_weights : List (String × ℚ),
      (MiniMaxScoreCalculator.calculate_overall_score dimension_scores
        dimension_weights).overall_score =
        (if 0 < MiniMaxScoreCalculator.totalWeight dimension_weights then
          round2 (MiniMaxScoreCalculator.weightedSum dimension_scores dimension_weights /
            MiniMaxScoreCalculator.totalWeight dimension_weights)
         else 0)) ∧
    (MiniMaxScoreCalculator.calculate_overall_score [("a", 4)] []).overall_score = 0 := by
  constructor
  · intro ds dw
    simp only [MiniMaxScoreCalculator.calculate_overall_score]
    split_ifs with h
    · rfl
    · exact (by decide : round2 (0 : ℚ) = 0)
  · decide

/-- Claim C9: both grade functions agree, every band is inclusive at
its lower edge (优秀 = excellent ≥ 9, 良好 = good ≥ 7.5, 合格 =
qualified ≥ 6, 不合格 = unqualified ≥ 3, 严重缺陷 = critical below 3),
and the claim's probe values land as stated. -/
theorem C9_grade_bands :
    (∀ s : ℚ, ScoreNormalizer.grade_score s none = MiniMaxScoreCalculator.grade_score s) ∧
    (∀ s : ℚ, 9 ≤ s → MiniMaxScoreCalculator.grade_score s = "优秀") ∧
    (∀ s : ℚ, 15/2 ≤ s → s < 9 → MiniMaxScoreCalculator.grade_score s = "良好") ∧
    (∀ s : ℚ, 6 ≤ s → s < 15/2 → MiniMaxScoreCalculator.grade_score s = "合格") ∧
    (∀ s : ℚ, 3 ≤ s → s < 6 → MiniMaxScoreCalculator.grade_score s = "不合格") ∧
    (∀ s : ℚ, s < 3 → MiniMaxScoreCalculator.grade_score s = "严重缺陷") ∧
    MiniMaxScoreCalculator.grade_score 9 = "优秀" ∧
    MiniMaxScoreCalculator.grade_score (89999/10000) = "良好" ∧
    MiniMaxScoreCalculator.grade_score (29999/10000) = "严重缺陷" := by
  refine ⟨?_, ?_, ?_, ?_, ?_, ?_, by decide, by decide, by decide⟩
  · intro s
    rfl
  · intro s h
    unfold MiniMaxScoreCalculator.grade_score
    rw [if_pos h]
  · intro s h1 h2
    unfold MiniMaxScoreCalculator.grade_score
    rw [if_neg (by simp only [ge_iff_le, not_le]; linarith), if_pos h1]
  · intro s h1 h2
    unfold MiniMaxScoreCalculator.grade_score
    rw [if_neg (by simp only [ge_iff_le, not_le]; linarith),
      if_neg (by simp only [ge_iff_le, not_le]; linarith), if_pos h1]
  · intro s h1 h2
    unfold MiniMaxScoreCalculator.grade_score
    rw [if_neg (by simp only [ge_iff_le, not_le]; linarith),
      if_neg (by simp only [ge_iff_le, not_le]; linarith),
      if_neg (by simp only [ge_iff_le, not_le]; linarith), if_pos h1]
  · intro s h
    unfold MiniMaxScoreCalculator.grade_score
    rw [if_neg (by simp only [ge_iff_le, not_le]; linarith),
      if_neg (by simp only [ge_iff_le, not_le]; linarith),
      if_neg (by simp only [ge_iff_le, not_le]; linarith),
      if_neg (by simp only [ge_iff_le, not_le]; linarith)]

/-- Witness for C9_grade_bands inside the good band. -/
theorem C9_grade_bands_witness :
    MiniMaxScoreCalculator.grade_score 8 = "良好" :=
  C9_grade_bands.2.2.1 8 (by norm_num) (by norm_num)

/-- Claim C10 (code-bug evidence): the staged fallback pattern requires
a literal backslash before its `d+`, so a plain numeric score is never
captured — "accuracy: 9" and "accuracy 4.5" both yield the 3.0 default,
where the claimed clamp of an extracted 9 would give 5.0 — and when the
pattern does match, the captured string (which always begins with a
backslash) makes `float(...)` raise, so the clamp of source line 206 is
unreachable and the fallback is not total. -/
theorem C10_text_extraction_dead_clamp :
    (ResponseParser.extract_scores_from_text "accuracy: 9" ["accuracy"]).map
      (fun r => (r.scores, r.overall_score)) =
      Except.ok ([("accuracy", 3)], some 3) ∧
    ((3 : ℚ) ≠ 5) ∧
    (ResponseParser.extract_scores_from_text "accuracy 4.5" ["accuracy"]).map
      (fun r => r.scores) = Except.ok [("accuracy", 3)] ∧
    ResponseParser.extract_scores_from_text "accuracy \\d" ["accuracy"] =
      Except.error "could not convert string to float" :=
  ⟨rfl, by decide, rfl, rfl⟩
